import Mathlib

/-!
Verification of the zocl ioctl routing layer
(`src/runtime_src/core/edge/drm/zocl/common/zocl_ioctl.c`).

The file shallowly embeds each ioctl handler as a Lean function.  Kernel
errno constants are modelled as natural numbers; a handler returns its
`int` status as an `Int` (negative errno on failure, `0` on success).
Reads of the aperture table are modelled through `Option`: a read with a
negative or out-of-range index (undefined behaviour in C) yields `none`,
which aborts the modelled execution.

External collaborators that the router merely delegates to
(`zocl_xclbin_read_axlf`, `zocl_create_hw_ctx`, `zocl_inject_error`, ...)
are opaque parameters of the corresponding handler model.  The two
aperture-table lookup helpers `get_apt_index_by_cu_idx` and
`get_apt_index_by_addr` are not part of the source file; they are
modelled from the spec (§4.4 Aperture Resolver).
-/

/-- Kernel errno `ENOENT` (no such entry). -/
def ENOENT : Int := 2

/-- Kernel errno `EACCES` (permission denied). -/
def EACCES : Int := 13

/-- Kernel errno `EFAULT` (bad address). -/
def EFAULT : Int := 14

/-- Kernel errno `EINVAL` (invalid argument). -/
def EINVAL : Int := 22

/-- One entry of the device aperture table (`struct addr_aperture`):
physical base address, size of the window, and the CU index it belongs
to. -/
structure AddrAperture where
  addr : Nat
  size : Nat
  cu_idx : Int
  deriving Repr, DecidableEq

/-- Argument/result record of the `INFO_CU` ioctl
(`struct drm_zocl_info_cu`): physical address, aperture-table index,
CU index and aperture size. -/
structure DrmZoclInfoCu where
  paddr : Nat
  apt_idx : Int
  cu_idx : Int
  cu_size : Nat
  deriving Repr, DecidableEq

/-- Read `apts[i]` with a C `int` index: defined only when `0 ≤ i` and
`i` is within the table; a read outside those bounds is undefined
behaviour in the C source and is modelled as `none`. -/
def aptAt (apts : List AddrAperture) (i : Int) : Option AddrAperture :=
  if 0 ≤ i then apts[i.toNat]? else none

/-- Modelled from the spec: `get_apt_index_by_cu_idx` is not in the
source file.  Per §4.4 the Aperture Resolver looks the aperture table
up by CU index; the helper returns the table index of the entry whose
CU index matches, or `-EINVAL` when no entry matches. -/
def get_apt_index_by_cu_idx (apts : List AddrAperture) (cu : Int) : Int :=
  match apts.findIdx? (fun e => e.cu_idx == cu) with
  | some i => (i : Int)
  | none => -EINVAL

/-- Modelled from the spec: `get_apt_index_by_addr` is not in the
source file.  Per §4.4 and the glossary an aperture is an address-space
window, so the helper returns the table index of the entry whose window
`[addr, addr + size)` contains the given physical address, or
`-EINVAL` when no entry does. -/
def get_apt_index_by_addr (apts : List AddrAperture) (a : Nat) : Int :=
  match apts.findIdx? (fun e => e.addr ≤ a && a < e.addr + e.size) with
  | some i => (i : Int)
  | none => -EINVAL

/-- Embedding of `zocl_info_cu_ioctl`.  Mirrors the C control flow:
if `cu_idx != -1`, try the CU-index lookup and on success take the
entry base address and jump to `out`; otherwise fall back to the lookup
by `args->paddr`, on success taking the entry CU index.  At `out` the
result record is written back, including the final
`apts[apt_idx].size` read, and the handler returns `0`.  Every
aperture-table read goes through `aptAt`; an out-of-bounds read aborts
with `none`. -/
def zocl_info_cu_ioctl (apts : List AddrAperture) (args : DrmZoclInfoCu) :
    Option (Int × DrmZoclInfoCu) :=
  let out := fun (apt_idx cu_idx : Int) (addr : Nat) =>
    match aptAt apts apt_idx with
    | some e => some ((0 : Int),
        { paddr := addr, apt_idx := apt_idx, cu_idx := cu_idx, cu_size := e.size })
    | none => none
  if args.cu_idx ≠ -1 ∧ get_apt_index_by_cu_idx apts args.cu_idx ≠ -EINVAL then
    let apt_idx := get_apt_index_by_cu_idx apts args.cu_idx
    match aptAt apts apt_idx with
    | some e => out apt_idx args.cu_idx e.addr
    | none => none
  else
    let apt_idx := get_apt_index_by_addr apts args.paddr
    if apt_idx ≠ -EINVAL then
      match aptAt apts apt_idx with
      | some e => out apt_idx e.cu_idx args.paddr
      | none => none
    else
      out apt_idx args.cu_idx args.paddr

/-- Aperture table of the spec scenario in §8: table index 3 carries
CU index 3, base address 0x8000_0000 and size 4096. -/
def demoApts : List AddrAperture :=
  [⟨0x10000, 4096, 0⟩, ⟨0x20000, 4096, 1⟩, ⟨0x30000, 4096, 2⟩,
   ⟨0x80000000, 4096, 3⟩]

/-- Environment of `zocl_create_hw_ctx_ioctl`: the outcome of
`copy_from_user` on the embedded axlf descriptor (`none` models a
faulting user pointer) and the two delegated calls.  `α` stands for the
opaque `struct drm_zocl_axlf` payload; `zocl_xclbin_read_axlf` returns
its status together with the `slot_id` out-parameter, and
`zocl_create_hw_ctx` maps that slot id to a status. -/
structure CreateHwCtxEnv (α : Type) where
  copy_from_user : Option α
  zocl_xclbin_read_axlf : α → Int × Int
  zocl_create_hw_ctx : Int → Int

/-- Embedding of `zocl_create_hw_ctx_ioctl`: copy the axlf descriptor
from user space (on failure return `-EFAULT`), run the bitstream load
(on failure return its status), then create the hardware context on
the returned slot.  The two booleans record whether the load and the
context creation were invoked, so that the no-partial-consumption
claims can be stated. -/
def zocl_create_hw_ctx_ioctl {α : Type} (env : CreateHwCtxEnv α) :
    Int × Bool × Bool :=
  match env.copy_from_user with
  | none => (-EFAULT, false, false)
  | some axlf_obj =>
    let r := env.zocl_xclbin_read_axlf axlf_obj
    if r.1 ≠ 0 then (r.1, true, false)
    else (env.zocl_create_hw_ctx r.2, true, true)

/-- Embedding of `zocl_error_ioctl`: without `CAP_SYS_ADMIN` return
`-EACCES`; otherwise delegate to `zocl_inject_error`.  The boolean
records whether the request was forwarded to the error-injection
subsystem. -/
def zocl_error_ioctl {α : Type} (capable_sys_admin : Bool)
    (zocl_inject_error : α → Int) (data : α) : Int × Bool :=
  if !capable_sys_admin then (-EACCES, false)
  else (zocl_inject_error data, true)

/-- Embedding of `zocl_read_axlf_ioctl`: delegate to
`zocl_xclbin_read_axlf` and return its status (the local `slot_id` is
discarded). -/
def zocl_read_axlf_ioctl {α : Type} (zocl_xclbin_read_axlf : α → Int × Int)
    (axlf_obj : α) : Int :=
  (zocl_xclbin_read_axlf axlf_obj).1

/-- Embedding of `zocl_ctx_ioctl`: delegate to `zocl_context_ioctl`
without acquiring `slot_xclbin_lock` (per the comment, the new KDS
locks the bitstream when the first context opens). -/
def zocl_ctx_ioctl {α : Type} (zocl_context_ioctl : α → Int) (data : α) : Int :=
  zocl_context_ioctl data

/-- Embedding of `zocl_destroy_hw_ctx_ioctl`: pure delegation. -/
def zocl_destroy_hw_ctx_ioctl {α : Type} (zocl_destroy_hw_ctx : α → Int)
    (drm_hw_ctx : α) : Int :=
  zocl_destroy_hw_ctx drm_hw_ctx

/-- Embedding of `zocl_open_cu_ctx_ioctl`: pure delegation. -/
def zocl_open_cu_ctx_ioctl {α : Type} (zocl_open_cu_ctx : α → Int)
    (drm_cu_ctx : α) : Int :=
  zocl_open_cu_ctx drm_cu_ctx

/-- Embedding of `zocl_close_cu_ctx_ioctl`: pure delegation. -/
def zocl_close_cu_ctx_ioctl {α : Type} (zocl_close_cu_ctx : α → Int)
    (drm_cu_ctx : α) : Int :=
  zocl_close_cu_ctx drm_cu_ctx

/-- Embedding of `zocl_execbuf_ioctl`: pure delegation to
`zocl_command_ioctl`. -/
def zocl_execbuf_ioctl {α : Type} (zocl_command_ioctl : α → Int)
    (data : α) : Int :=
  zocl_command_ioctl data

/-- Embedding of `zocl_hw_ctx_execbuf_ioctl`: pure delegation. -/
def zocl_hw_ctx_execbuf_ioctl {α : Type} (zocl_hw_ctx_execbuf : α → Int)
    (drm_hw_ctx_execbuf : α) : Int :=
  zocl_hw_ctx_execbuf drm_hw_ctx_execbuf

/-- Embedding of `zocl_aie_fd_ioctl`: pure delegation to
`zocl_aie_request_part_fd`. -/
def zocl_aie_fd_ioctl {α : Type} (zocl_aie_request_part_fd : α → Int)
    (args : α) : Int :=
  zocl_aie_request_part_fd args

/-- Embedding of `zocl_aie_reset_ioctl`: pure delegation. -/
def zocl_aie_reset_ioctl (zocl_aie_reset : Unit → Int) : Int :=
  zocl_aie_reset ()

/-- Embedding of `zocl_aie_freqscale_ioctl`: pure delegation. -/
def zocl_aie_freqscale_ioctl {α : Type} (zocl_aie_freqscale : α → Int)
    (data : α) : Int :=
  zocl_aie_freqscale data

/-- Argument record of the `SET_CU_READONLY_RANGE` ioctl
(`struct drm_zocl_set_cu_range`). -/
structure DrmZoclSetCuRange where
  cu_index : Nat
  start : Nat
  size : Nat

/-- Embedding of `zocl_set_cu_read_only_range_ioctl`: unpack the
argument record and delegate to `zocl_kds_set_cu_read_range`. -/
def zocl_set_cu_read_only_range_ioctl
    (zocl_kds_set_cu_read_range : Nat → Nat → Nat → Int)
    (info : DrmZoclSetCuRange) : Int :=
  zocl_kds_set_cu_read_range info.cu_index info.start info.size

lemma aptAt_natCast (apts : List AddrAperture) (i : Nat) (hlt : i < apts.length) :
    aptAt apts (i : Int) = some apts[i] := by
  simp [aptAt, List.getElem?_eq_getElem hlt]

lemma aptAt_neg_EINVAL (apts : List AddrAperture) :
    aptAt apts (-EINVAL) = none := by
  simp [aptAt, EINVAL]

lemma info_cu_cu_path (apts : List AddrAperture) (args : DrmZoclInfoCu)
    (i : Nat) (hlt : i < apts.length) (hcu : args.cu_idx ≠ -1)
    (hfind : get_apt_index_by_cu_idx apts args.cu_idx = (i : Int)) :
    zocl_info_cu_ioctl apts args =
      some (0, { paddr := apts[i].addr, apt_idx := (i : Int),
                 cu_idx := args.cu_idx, cu_size := apts[i].size }) := by
  have hne : get_apt_index_by_cu_idx apts args.cu_idx ≠ -EINVAL := by
    rw [hfind]
    intro h
    simp [EINVAL] at h
  unfold zocl_info_cu_ioctl
  rw [if_pos ⟨hcu, hne⟩]
  simp only [hfind, aptAt_natCast apts i hlt]

lemma info_cu_addr_path (apts : List AddrAperture) (args : DrmZoclInfoCu)
    (i : Nat) (hlt : i < apts.length)
    (hcu : args.cu_idx = -1 ∨ get_apt_index_by_cu_idx apts args.cu_idx = -EINVAL)
    (hfind : get_apt_index_by_addr apts args.paddr = (i : Int)) :
    zocl_info_cu_ioctl apts args =
      some (0, { paddr := args.paddr, apt_idx := (i : Int),
                 cu_idx := apts[i].cu_idx, cu_size := apts[i].size }) := by
  have hine : (i : Int) ≠ -EINVAL := by
    intro h
    simp [EINVAL] at h
  have hnot : ¬ (args.cu_idx ≠ -1 ∧ get_apt_index_by_cu_idx apts args.cu_idx ≠ -EINVAL) := by
    rcases hcu with h | h
    · intro hc; exact hc.1 h
    · intro hc; exact hc.2 h
  unfold zocl_info_cu_ioctl
  rw [if_neg hnot]
  simp only [hfind, aptAt_natCast apts i hlt]
  rw [if_pos hine]

lemma info_cu_both_fail (apts : List AddrAperture) (args : DrmZoclInfoCu)
    (hcu : args.cu_idx = -1 ∨ get_apt_index_by_cu_idx apts args.cu_idx = -EINVAL)
    (haddr : get_apt_index_by_addr apts args.paddr = -EINVAL) :
    zocl_info_cu_ioctl apts args = none := by
  have hnot : ¬ (args.cu_idx ≠ -1 ∧ get_apt_index_by_cu_idx apts args.cu_idx ≠ -EINVAL) := by
    rcases hcu with h | h
    · intro hc; exact hc.1 h
    · intro hc; exact hc.2 h
  unfold zocl_info_cu_ioctl
  rw [if_neg hnot]
  simp only [haddr]
  rw [if_neg (by simp)]
  simp [aptAt_neg_EINVAL]

/-- C1 counterexample: a ResolveAperture request on the §8 scenario
table where both lookups fail (no CU index supplied, address 0 outside
every aperture window) does not return `-ENOENT` (NotFound): the
modelled execution aborts on the out-of-bounds size read instead. -/
theorem zocl_info_cu_both_fail_cex :
    (zocl_info_cu_ioctl demoApts
        { paddr := 0, apt_idx := 0, cu_idx := -1, cu_size := 0 }).map Prod.fst ≠
      some (-ENOENT) := by
  decide

/-- C1 (amended): when both the CU-index lookup and the address lookup
fail, `zocl_info_cu_ioctl` does not return a `NotFound` status.  It
leaves `apt_idx = -EINVAL`, and the final `apts[apt_idx].size` read of
the write-back path is out of bounds, so the modelled execution has no
defined result at all. -/
theorem zocl_info_cu_both_fail_no_notfound (apts : List AddrAperture)
    (args : DrmZoclInfoCu)
    (hcu : args.cu_idx = -1 ∨ get_apt_index_by_cu_idx apts args.cu_idx = -EINVAL)
    (haddr : get_apt_index_by_addr apts args.paddr = -EINVAL) :
    zocl_info_cu_ioctl apts args = none :=
  info_cu_both_fail apts args hcu haddr

/-- Witness for C1 at the concrete scenario table. -/
theorem zocl_info_cu_both_fail_no_notfound_witness :
    zocl_info_cu_ioctl demoApts
        { paddr := 0, apt_idx := 0, cu_idx := -1, cu_size := 0 } = none :=
  zocl_info_cu_both_fail_no_notfound demoApts
    { paddr := 0, apt_idx := 0, cu_idx := -1, cu_size := 0 }
    (Or.inl rfl) (by decide)

/-- C2: the final size read `apts[apt_idx].size` is not always
performed at a non-negative in-bounds index.  On a request whose CU
index (99) is unknown and whose address (1) lies in no aperture window,
`apt_idx` is still `-EINVAL` at the read, and the modelled execution
aborts on the out-of-bounds access. -/
theorem zocl_info_cu_oob_size_read :
    zocl_info_cu_ioctl demoApts
        { paddr := 1, apt_idx := 0, cu_idx := 99, cu_size := 0 } = none := by
  decide

/-- C3: when the request supplies a CU index (`cu_idx ≠ -1`) and the
CU-index lookup succeeds at table index `i`, the CU index takes
precedence: the result is built solely from entry `i` — its base
address, its table index and its size — and the caller-supplied CU
index is echoed back; the address lookup does not influence the
result. -/
theorem zocl_info_cu_cu_idx_precedence (apts : List AddrAperture)
    (args : DrmZoclInfoCu) (i : Nat) (hlt : i < apts.length)
    (hcu : args.cu_idx ≠ -1)
    (hfind : get_apt_index_by_cu_idx apts args.cu_idx = (i : Int)) :
    zocl_info_cu_ioctl apts args =
      some (0, { paddr := apts[i].addr, apt_idx := (i : Int),
                 cu_idx := args.cu_idx, cu_size := apts[i].size }) :=
  info_cu_cu_path apts args i hlt hcu hfind

/-- Witness for C3: the §8 scenario `ResolveAperture(cuIndex=3)` echoes
table index 3, address 0x8000_0000 and size 4096. -/
theorem zocl_info_cu_cu_idx_precedence_witness :
    zocl_info_cu_ioctl demoApts
        { paddr := 0, apt_idx := -1, cu_idx := 3, cu_size := 0 } =
      some (0, { paddr := 0x80000000, apt_idx := 3, cu_idx := 3, cu_size := 4096 }) :=
  zocl_info_cu_cu_idx_precedence demoApts
    { paddr := 0, apt_idx := -1, cu_idx := 3, cu_size := 0 }
    3 (by decide) (by decide) (by decide)

/-- C4: when no CU index is supplied (`cu_idx = -1`) or the CU-index
lookup fails, and the address lookup succeeds at table index `i`, the
resolver degrades to resolving by address and the returned CU index is
the one recorded in entry `i`. -/
theorem zocl_info_cu_addr_fallback (apts : List AddrAperture)
    (args : DrmZoclInfoCu) (i : Nat) (hlt : i < apts.length)
    (hcu : args.cu_idx = -1 ∨ get_apt_index_by_cu_idx apts args.cu_idx = -EINVAL)
    (hfind : get_apt_index_by_addr apts args.paddr = (i : Int)) :
    zocl_info_cu_ioctl apts args =
      some (0, { paddr := args.paddr, apt_idx := (i : Int),
                 cu_idx := apts[i].cu_idx, cu_size := apts[i].size }) :=
  info_cu_addr_path apts args i hlt hcu hfind

/-- Witness for C4: the §8 scenario
`ResolveAperture(physicalAddress=0x8000_0000)` yields CU index 3. -/
theorem zocl_info_cu_addr_fallback_witness :
    zocl_info_cu_ioctl demoApts
        { paddr := 0x80000000, apt_idx := 0, cu_idx := -1, cu_size := 0 } =
      some (0, { paddr := 0x80000000, apt_idx := 3, cu_idx := 3, cu_size := 4096 }) :=
  zocl_info_cu_addr_fallback demoApts
    { paddr := 0x80000000, apt_idx := 0, cu_idx := -1, cu_size := 0 }
    3 (by decide) (Or.inl rfl) (by decide)

/-- C10: on the address-fallback path (no CU index supplied or CU-index
lookup failed, address lookup succeeded) the `paddr` written back to
the result record is the caller-supplied physical address, unchanged —
the entry base address is written back only on the CU-index path. -/
theorem zocl_info_cu_fallback_paddr_unchanged (apts : List AddrAperture)
    (args : DrmZoclInfoCu) (i : Nat) (hlt : i < apts.length)
    (hcu : args.cu_idx = -1 ∨ get_apt_index_by_cu_idx apts args.cu_idx = -EINVAL)
    (hfind : get_apt_index_by_addr apts args.paddr = (i : Int)) :
    (zocl_info_cu_ioctl apts args).map (fun r => r.2.paddr) = some args.paddr := by
  rw [info_cu_addr_path apts args i hlt hcu hfind]
  rfl

/-- Witness for C10: address 0x20004 lies strictly inside the window of
entry 1 and is echoed back verbatim, not rounded to the entry base. -/
theorem zocl_info_cu_fallback_paddr_unchanged_witness :
    (zocl_info_cu_ioctl demoApts
        { paddr := 0x20004, apt_idx := 0, cu_idx := -1, cu_size := 0 }).map
      (fun r => r.2.paddr) = some 0x20004 :=
  zocl_info_cu_fallback_paddr_unchanged demoApts
    { paddr := 0x20004, apt_idx := 0, cu_idx := -1, cu_size := 0 }
    1 (by decide) (Or.inl rfl) (by decide)

/-- C5: in `zocl_create_hw_ctx_ioctl` the bitstream load is performed
before context creation within the same request: if the load fails the
ioctl returns the load status and never invokes `zocl_create_hw_ctx`;
and whenever the context creation is invoked, the descriptor copy and
the load succeeded first. -/
theorem zocl_create_hw_ctx_load_gates_create {α : Type} (env : CreateHwCtxEnv α) :
    (∀ a, env.copy_from_user = some a →
      (env.zocl_xclbin_read_axlf a).1 ≠ 0 →
      zocl_create_hw_ctx_ioctl env = ((env.zocl_xclbin_read_axlf a).1, true, false)) ∧
    ((zocl_create_hw_ctx_ioctl env).2.2 = true →
      ∃ a, env.copy_from_user = some a ∧ (env.zocl_xclbin_read_axlf a).1 = 0 ∧
        (zocl_create_hw_ctx_ioctl env).2.1 = true) := by
  constructor
  · intro a hc hf
    simp [zocl_create_hw_ctx_ioctl, hc, hf]
  · intro h
    cases hc : env.copy_from_user with
    | none => simp [zocl_create_hw_ctx_ioctl, hc] at h
    | some a =>
      by_cases hf : (env.zocl_xclbin_read_axlf a).1 = 0
      · exact ⟨a, by simp [hc], hf, by simp [zocl_create_hw_ctx_ioctl, hc, hf]⟩
      · simp [zocl_create_hw_ctx_ioctl, hc, hf] at h

/-- Witness for C5: a load failing with `-EINVAL` is propagated and no
context is created. -/
theorem zocl_create_hw_ctx_load_gates_create_witness :
    zocl_create_hw_ctx_ioctl
        ({ copy_from_user := some 1,
           zocl_xclbin_read_axlf := fun _ => (-EINVAL, 0),
           zocl_create_hw_ctx := fun _ => 0 } : CreateHwCtxEnv Nat) =
      (-EINVAL, true, false) :=
  (zocl_create_hw_ctx_load_gates_create
      ({ copy_from_user := some 1,
         zocl_xclbin_read_axlf := fun _ => (-EINVAL, 0),
         zocl_create_hw_ctx := fun _ => 0 } : CreateHwCtxEnv Nat)).1
    1 rfl (by decide)

/-- C6 counterexample: when the axlf descriptor cannot be copied from
the caller, `zocl_create_hw_ctx_ioctl` does not fail with `-EINVAL`
(InvalidArgument); it returns `-EFAULT`. -/
theorem zocl_create_hw_ctx_copy_fail_cex :
    (zocl_create_hw_ctx_ioctl
        ({ copy_from_user := none,
           zocl_xclbin_read_axlf := fun _ => (0, 0),
           zocl_create_hw_ctx := fun _ => 0 } : CreateHwCtxEnv Nat)).1 ≠
      -EINVAL := by
  decide

/-- C6 (amended): when the embedded axlf descriptor cannot be read from
the caller, the operation fails with `-EFAULT` (bad address) and is
never partially consumed: no bitstream load is attempted and no context
is created. -/
theorem zocl_create_hw_ctx_copy_fail_efault {α : Type} (env : CreateHwCtxEnv α)
    (hc : env.copy_from_user = none) :
    zocl_create_hw_ctx_ioctl env = (-EFAULT, false, false) := by
  simp [zocl_create_hw_ctx_ioctl, hc]

/-- Witness for C6 at a concrete environment. -/
theorem zocl_create_hw_ctx_copy_fail_efault_witness :
    zocl_create_hw_ctx_ioctl
        ({ copy_from_user := none,
           zocl_xclbin_read_axlf := fun _ => (0, 0),
           zocl_create_hw_ctx := fun _ => 0 } : CreateHwCtxEnv Nat) =
      (-EFAULT, false, false) :=
  zocl_create_hw_ctx_copy_fail_efault
    ({ copy_from_user := none,
       zocl_xclbin_read_axlf := fun _ => (0, 0),
       zocl_create_hw_ctx := fun _ => 0 } : CreateHwCtxEnv Nat) rfl

/-- C7: an InjectError request from a caller without `CAP_SYS_ADMIN`
fails with `-EACCES` (PermissionDenied) and is not forwarded to the
error-injection subsystem, whatever the request payload and whatever
`zocl_inject_error` would have returned. -/
theorem zocl_error_requires_admin {α : Type} (zocl_inject_error : α → Int)
    (data : α) :
    zocl_error_ioctl false zocl_inject_error data = (-EACCES, false) :=
  rfl

/-- C9: each of the delegated handlers — destroy hardware context,
open/close CU context, command submission (legacy and hw-context),
AIE partition request, AIE reset, AIE frequency scaling, CU read-only
range — returns exactly the status produced by the delegated call, with
no error swallowed or remapped. -/
theorem zocl_router_status_passthrough {α β γ δ ε ζ η : Type}
    (zocl_destroy_hw_ctx : α → Int) (a : α)
    (zocl_open_cu_ctx : β → Int) (b : β)
    (zocl_close_cu_ctx : γ → Int) (c : γ)
    (zocl_command_ioctl : δ → Int) (d : δ)
    (zocl_hw_ctx_execbuf : ε → Int) (e : ε)
    (zocl_aie_request_part_fd : ζ → Int) (f : ζ)
    (zocl_aie_reset : Unit → Int)
    (zocl_aie_freqscale : η → Int) (g : η)
    (zocl_kds_set_cu_read_range : Nat → Nat → Nat → Int)
    (info : DrmZoclSetCuRange) :
    zocl_destroy_hw_ctx_ioctl zocl_destroy_hw_ctx a = zocl_destroy_hw_ctx a ∧
    zocl_open_cu_ctx_ioctl zocl_open_cu_ctx b = zocl_open_cu_ctx b ∧
    zocl_close_cu_ctx_ioctl zocl_close_cu_ctx c = zocl_close_cu_ctx c ∧
    zocl_execbuf_ioctl zocl_command_ioctl d = zocl_command_ioctl d ∧
    zocl_hw_ctx_execbuf_ioctl zocl_hw_ctx_execbuf e = zocl_hw_ctx_execbuf e ∧
    zocl_aie_fd_ioctl zocl_aie_request_part_fd f = zocl_aie_request_part_fd f ∧
    zocl_aie_reset_ioctl zocl_aie_reset = zocl_aie_reset () ∧
    zocl_aie_freqscale_ioctl zocl_aie_freqscale g = zocl_aie_freqscale g ∧
    zocl_set_cu_read_only_range_ioctl zocl_kds_set_cu_read_range info =
      zocl_kds_set_cu_read_range info.cu_index info.start info.size :=
  ⟨rfl, rfl, rfl, rfl, rfl, rfl, rfl, rfl, rfl⟩
